import Mathlib

/-!
Verification of the grid-geometry, grid-rendering and cell-extraction core of
the extract-pixels tool.

JavaScript numbers are embedded as exact rationals (`ℚ`); `Math.floor` is
`Int.floor` and `Math.min` is `min`, which agree with the JavaScript
functions on all inputs arising here.  Machine `Uint8ClampedArray` reads out
of range yield `undefined`, and `undefined` poisons subsequent `+` to `NaN`;
this is embedded with `Option ℚ` (`none` = NaN), since the only operations
applied are `+` (NaN-absorbing) and `>` (false on NaN).
-/

/-- `GridParams` from rendererTypes.ts: all five user parameters, in unscaled
coordinates. -/
structure GridParams where
  canvasSize : ℚ × ℚ
  maxCells : ℚ × ℚ
  cellSize : ℚ × ℚ
  gridOffset : ℚ × ℚ
  renderScale : ℚ

/-- `gridPixels` computed in canvas2DRenderer.ts `renderGrid` (lines 19-28):
per-axis cell count `min(maxCells, floor((canvasSize - gridOffset) / cellSize))`. -/
def renderGrid_gridPixels (p : GridParams) : ℚ × ℚ :=
  (min p.maxCells.1 ((⌊(p.canvasSize.1 - p.gridOffset.1) / p.cellSize.1⌋ : ℤ) : ℚ),
   min p.maxCells.2 ((⌊(p.canvasSize.2 - p.gridOffset.2) / p.cellSize.2⌋ : ℤ) : ℚ))

/-- `gridEnd` computed in canvas2DRenderer.ts `renderGrid` (lines 30-33):
`gridOffset + cellSize * gridPixels`. -/
def renderGrid_gridEnd (p : GridParams) : ℚ × ℚ :=
  (p.gridOffset.1 + p.cellSize.1 * (renderGrid_gridPixels p).1,
   p.gridOffset.2 + p.cellSize.2 * (renderGrid_gridPixels p).2)

/-- `gridCellCount` computed in webGLRenderer.ts `drawGridScene` (lines 230-234). -/
def drawGridScene_gridCellCount (p : GridParams) : ℚ × ℚ :=
  (min p.maxCells.1 ((⌊(p.canvasSize.1 - p.gridOffset.1) / p.cellSize.1⌋ : ℤ) : ℚ),
   min p.maxCells.2 ((⌊(p.canvasSize.2 - p.gridOffset.2) / p.cellSize.2⌋ : ℤ) : ℚ))

/-- `(pixelsWidth, pixelsHeight)` computed in the extraction effect of App.tsx
(lines 336-344). -/
def extract_pixelsCount (p : GridParams) : ℚ × ℚ :=
  (min p.maxCells.1 ((⌊(p.canvasSize.1 - p.gridOffset.1) / p.cellSize.1⌋ : ℤ) : ℚ),
   min p.maxCells.2 ((⌊(p.canvasSize.2 - p.gridOffset.2) / p.cellSize.2⌋ : ℤ) : ℚ))

/-- The grid extent `gridOffset + cellSize * cellCount` derived from a given
cell count, as in the spec's GridGeometry. -/
def gridExtentOf (p : GridParams) (count : ℚ × ℚ) : ℚ × ℚ :=
  (p.gridOffset.1 + p.cellSize.1 * count.1, p.gridOffset.2 + p.cellSize.2 * count.2)

/-- Scalar form of the shared per-axis cell-count formula, for the helper
lemmas below. -/
def cellCountAxis (canv mc cs off : ℚ) : ℚ :=
  min mc ((⌊(canv - off) / cs⌋ : ℤ) : ℚ)

lemma renderGrid_gridPixels_fst (p : GridParams) :
    (renderGrid_gridPixels p).1 =
      cellCountAxis p.canvasSize.1 p.maxCells.1 p.cellSize.1 p.gridOffset.1 := rfl

lemma renderGrid_gridPixels_snd (p : GridParams) :
    (renderGrid_gridPixels p).2 =
      cellCountAxis p.canvasSize.2 p.maxCells.2 p.cellSize.2 p.gridOffset.2 := rfl

lemma cellCountAxis_le_max (canv mc cs off : ℚ) : cellCountAxis canv mc cs off ≤ mc :=
  min_le_left _ _

/-- The per-axis extent never exceeds the canvas size when the cell size is
positive. -/
lemma extentAxis_le_canvas (canv mc cs off : ℚ) (hcs : 0 < cs) :
    off + cs * cellCountAxis canv mc cs off ≤ canv := by
  have h1 : cellCountAxis canv mc cs off ≤ (canv - off) / cs := by
    refine le_trans (min_le_right _ _) ?_
    exact_mod_cast Int.floor_le ((canv - off) / cs)
  have h2 : cs * cellCountAxis canv mc cs off ≤ cs * ((canv - off) / cs) :=
    mul_le_mul_of_nonneg_left h1 (le_of_lt hcs)
  have h3 : cs * ((canv - off) / cs) = canv - off := by
    field_simp
  linarith

lemma cellCountAxis_nonneg (canv mc cs off : ℚ) (hcs : 0 < cs) (hmc : 0 ≤ mc)
    (hoff : off ≤ canv) : 0 ≤ cellCountAxis canv mc cs off := by
  refine le_min hmc ?_
  have : (0 : ℚ) ≤ (canv - off) / cs := div_nonneg (by linarith) (le_of_lt hcs)
  exact_mod_cast Int.floor_nonneg.mpr this

lemma cellCountAxis_neg (canv mc cs off : ℚ) (hcs : 0 < cs) (hoff : canv < off) :
    cellCountAxis canv mc cs off < 0 := by
  have h1 : (canv - off) / cs < 0 := div_neg_of_neg_of_pos (by linarith) hcs
  have h2 : (⌊(canv - off) / cs⌋ : ℤ) < 0 := Int.floor_lt.mpr (by exact_mod_cast h1)
  refine lt_of_le_of_lt (min_le_right _ _) ?_
  exact_mod_cast h2

/-- C1: Geometry agreement — for every input with positive cell sizes, the
per-axis cell counts computed by the raster renderer (`renderGrid`), the
shader renderer (`drawGridScene`) and the extraction effect in App are
identical, and hence so are the grid extents `gridOffset + cellSize * cellCount`
derived from them. -/
theorem geometry_agreement (p : GridParams)
    (hx : 0 < p.cellSize.1) (hy : 0 < p.cellSize.2) :
    renderGrid_gridPixels p = drawGridScene_gridCellCount p ∧
    renderGrid_gridPixels p = extract_pixelsCount p ∧
    gridExtentOf p (renderGrid_gridPixels p) = gridExtentOf p (drawGridScene_gridCellCount p) ∧
    gridExtentOf p (renderGrid_gridPixels p) = gridExtentOf p (extract_pixelsCount p) := by
  exact ⟨rfl, rfl, rfl, rfl⟩

/-- Witness for C1 at the spec's example `canvasSize=(100,100)`, `maxCells=(8,8)`,
`cellSize=(20,20)`, `gridOffset=(0,0)`. -/
theorem geometry_agreement_witness :
    renderGrid_gridPixels ⟨(100, 100), (8, 8), (20, 20), (0, 0), 1⟩ =
      drawGridScene_gridCellCount ⟨(100, 100), (8, 8), (20, 20), (0, 0), 1⟩ ∧
    renderGrid_gridPixels ⟨(100, 100), (8, 8), (20, 20), (0, 0), 1⟩ =
      extract_pixelsCount ⟨(100, 100), (8, 8), (20, 20), (0, 0), 1⟩ ∧
    gridExtentOf ⟨(100, 100), (8, 8), (20, 20), (0, 0), 1⟩
        (renderGrid_gridPixels ⟨(100, 100), (8, 8), (20, 20), (0, 0), 1⟩) =
      gridExtentOf ⟨(100, 100), (8, 8), (20, 20), (0, 0), 1⟩
        (drawGridScene_gridCellCount ⟨(100, 100), (8, 8), (20, 20), (0, 0), 1⟩) ∧
    gridExtentOf ⟨(100, 100), (8, 8), (20, 20), (0, 0), 1⟩
        (renderGrid_gridPixels ⟨(100, 100), (8, 8), (20, 20), (0, 0), 1⟩) =
      gridExtentOf ⟨(100, 100), (8, 8), (20, 20), (0, 0), 1⟩
        (extract_pixelsCount ⟨(100, 100), (8, 8), (20, 20), (0, 0), 1⟩) :=
  geometry_agreement ⟨(100, 100), (8, 8), (20, 20), (0, 0), 1⟩ (by norm_num) (by norm_num)

/-- C2 counterexample: at `canvasSize=(0,0)`, `maxCells=(5,5)`, `cellSize=(1,1)`,
`gridOffset=(10,10)` — where `cellSize > 0`, `maxCells ≥ 0` and
`canvasSize < gridOffset` — the computed x cell count is `-10`, not `0`:
negative floor results are returned negative, not clamped. -/
theorem cellcount_nonneg_cex :
    (0 : ℚ) < 1 ∧ (0 : ℚ) ≤ 5 ∧ (0 : ℚ) < 10 ∧
    (extract_pixelsCount ⟨(0, 0), (5, 5), (1, 1), (10, 10), 1⟩).1 = -10 ∧
    ((-10 : ℚ) ≠ 0 ∧ (-10 : ℚ) < 0) := by
  refine ⟨by norm_num, by norm_num, by norm_num, ?_, by norm_num⟩
  show min (5 : ℚ) ((⌊((0 : ℚ) - 10) / 1⌋ : ℤ) : ℚ) = -10
  norm_num

/-- C2 (amended): with `cellSize[i] > 0` and `maxCells[i] ≥ 0`, the cell count
computed by the extraction effect is ≥ 0 whenever `gridOffset[i] ≤ canvasSize[i]`;
when `canvasSize[i] < gridOffset[i]` it is strictly negative (the min with the
negative floor), not clamped to 0. -/
theorem cellcount_nonneg (p : GridParams)
    (hx : 0 < p.cellSize.1) (hy : 0 < p.cellSize.2)
    (hmx : 0 ≤ p.maxCells.1) (hmy : 0 ≤ p.maxCells.2) :
    ((p.gridOffset.1 ≤ p.canvasSize.1 → 0 ≤ (extract_pixelsCount p).1) ∧
     (p.canvasSize.1 < p.gridOffset.1 → (extract_pixelsCount p).1 < 0)) ∧
    ((p.gridOffset.2 ≤ p.canvasSize.2 → 0 ≤ (extract_pixelsCount p).2) ∧
     (p.canvasSize.2 < p.gridOffset.2 → (extract_pixelsCount p).2 < 0)) := by
  refine ⟨⟨fun h => ?_, fun h => ?_⟩, ⟨fun h => ?_, fun h => ?_⟩⟩
  · exact cellCountAxis_nonneg _ _ _ _ hx hmx h
  · exact cellCountAxis_neg _ _ _ _ hx h
  · exact cellCountAxis_nonneg _ _ _ _ hy hmy h
  · exact cellCountAxis_neg _ _ _ _ hy h

/-- Witness for C2 (amended) at the spec's example parameters. -/
theorem cellcount_nonneg_witness :
    (((0 : ℚ) ≤ 100 → 0 ≤ (extract_pixelsCount ⟨(100, 100), (8, 8), (20, 20), (0, 0), 1⟩).1) ∧
     ((100 : ℚ) < 0 → (extract_pixelsCount ⟨(100, 100), (8, 8), (20, 20), (0, 0), 1⟩).1 < 0)) ∧
    (((0 : ℚ) ≤ 100 → 0 ≤ (extract_pixelsCount ⟨(100, 100), (8, 8), (20, 20), (0, 0), 1⟩).2) ∧
     ((100 : ℚ) < 0 → (extract_pixelsCount ⟨(100, 100), (8, 8), (20, 20), (0, 0), 1⟩).2 < 0)) :=
  cellcount_nonneg ⟨(100, 100), (8, 8), (20, 20), (0, 0), 1⟩
    (by norm_num) (by norm_num) (by norm_num) (by norm_num)

/-- C3: Clamping invariant — with positive cell sizes, the computed cell counts
never exceed `maxCells` and the grid extent `gridOffset + cellSize * cellCount`
never exceeds `canvasSize`, on both axes. -/
theorem clamping_invariant (p : GridParams)
    (hx : 0 < p.cellSize.1) (hy : 0 < p.cellSize.2) :
    (renderGrid_gridPixels p).1 ≤ p.maxCells.1 ∧
    (renderGrid_gridPixels p).2 ≤ p.maxCells.2 ∧
    (renderGrid_gridEnd p).1 ≤ p.canvasSize.1 ∧
    (renderGrid_gridEnd p).2 ≤ p.canvasSize.2 := by
  refine ⟨min_le_left _ _, min_le_left _ _, ?_, ?_⟩
  · exact extentAxis_le_canvas _ _ _ _ hx
  · exact extentAxis_le_canvas _ _ _ _ hy

/-- Witness for C3 at the spec's clamped example `canvasSize=(1000,1000)`,
`maxCells=(4,4)`, `cellSize=(20,20)`, `gridOffset=(0,0)`. -/
theorem clamping_invariant_witness :
    (renderGrid_gridPixels ⟨(1000, 1000), (4, 4), (20, 20), (0, 0), 1⟩).1 ≤ 4 ∧
    (renderGrid_gridPixels ⟨(1000, 1000), (4, 4), (20, 20), (0, 0), 1⟩).2 ≤ 4 ∧
    (renderGrid_gridEnd ⟨(1000, 1000), (4, 4), (20, 20), (0, 0), 1⟩).1 ≤ 1000 ∧
    (renderGrid_gridEnd ⟨(1000, 1000), (4, 4), (20, 20), (0, 0), 1⟩).2 ≤ 1000 :=
  clamping_invariant ⟨(1000, 1000), (4, 4), (20, 20), (0, 0), 1⟩ (by norm_num) (by norm_num)

/-- `Math.round` of JavaScript: `round(x) = floor(x + 1/2)` (round half toward
positive infinity), which is the behaviour of `Math.round` on every real. -/
def mathRound (q : ℚ) : ℤ := ⌊q + 1 / 2⌋

/-- `sx` (resp. `sy`) of the extraction effect, App.tsx lines 375 and 377:
`Math.round(gridOffset + x * cellSize)` for cell index `x`. -/
def extract_sx (off cs : ℚ) (x : ℕ) : ℤ := mathRound (off + (x : ℚ) * cs)

/-- `ex` (resp. `ey`) of the extraction effect, App.tsx lines 376 and 378:
`Math.round(sx + cellSize)` — note the inner operand is the already-rounded
`sx`, not the exact offset. -/
def extract_ex (off cs : ℚ) (x : ℕ) : ℤ := mathRound ((extract_sx off cs x : ℚ) + cs)

/-- C4 counterexample: with `gridOffset = 2/5 ≥ 0` and `cellSize = 6/5 ≥ 1`,
the first cell's end bound is `round(round(0.4) + 1.2) = 1` while the second
cell's start bound is `round(0.4 + 1.2) = 2`: adjacent cell rectangles do not
meet, so source pixel 1 is sampled by no cell. -/
theorem cell_partition_cex :
    (0 : ℚ) ≤ 2 / 5 ∧ (1 : ℚ) ≤ 6 / 5 ∧
    extract_ex (2 / 5) (6 / 5) 0 = 1 ∧ extract_sx (2 / 5) (6 / 5) 1 = 2 ∧
    (1 : ℤ) ≠ 2 := by
  refine ⟨by norm_num, by norm_num, ?_, ?_, by norm_num⟩
  · show mathRound ((mathRound ((2 : ℚ) / 5 + (0 : ℕ) * (6 / 5)) : ℚ) + 6 / 5) = 1
    have h0 : mathRound ((2 : ℚ) / 5 + (0 : ℕ) * (6 / 5)) = 0 := by
      show (⌊(2 : ℚ) / 5 + (0 : ℕ) * (6 / 5) + 1 / 2⌋ : ℤ) = 0
      rw [Int.floor_eq_iff] <;> norm_num
    rw [h0]
    show (⌊((0 : ℤ) : ℚ) + 6 / 5 + 1 / 2⌋ : ℤ) = 1
    rw [Int.floor_eq_iff] <;> norm_num
  · show (⌊(2 : ℚ) / 5 + (1 : ℕ) * (6 / 5) + 1 / 2⌋ : ℤ) = 2
    rw [Int.floor_eq_iff] <;> norm_num

/-- C4 (amended): when the cell size is an integer (with `gridOffset ≥ 0` and
`cellSize ≥ 1` as in the claim), adjacent cell bounds in the extractor meet
exactly: `ex(x) = sx(x+1)`, so the cell rectangles partition the sampled
region.  For fractional cell sizes the nested rounding
`round(round(gridOffset + x*cellSize) + cellSize)` differs from
`round(gridOffset + (x+1)*cellSize)` and cells can leave gaps or overlap. -/
theorem cell_partition (off : ℚ) (m : ℤ) (x : ℕ) (hoff : 0 ≤ off) (hm : 1 ≤ m) :
    extract_ex off (m : ℚ) x = extract_sx off (m : ℚ) (x + 1) := by
  unfold extract_ex extract_sx mathRound
  have h1 : (⌊((⌊off + (x : ℚ) * (m : ℚ) + 1 / 2⌋ : ℤ) : ℚ) + (m : ℚ) + 1 / 2⌋ : ℤ) =
      ⌊off + (x : ℚ) * (m : ℚ) + 1 / 2⌋ + m := by
    rw [add_right_comm, Int.floor_add_int, Int.floor_int_add]
    norm_num
  rw [h1]
  push_cast
  rw [show off + ((x : ℚ) + 1) * (m : ℚ) + 1 / 2 = off + (x : ℚ) * (m : ℚ) + 1 / 2 + (m : ℚ) by ring,
    Int.floor_add_int]

/-- Witness for C4 (amended) at `gridOffset = 0`, `cellSize = 1`, `x = 0`. -/
theorem cell_partition_witness :
    (0 : ℚ) ≤ 0 ∧ (1 : ℤ) ≤ 1 ∧ extract_ex 0 ((1 : ℤ) : ℚ) 0 = extract_sx 0 ((1 : ℤ) : ℚ) 1 :=
  ⟨le_refl 0, le_refl 1, cell_partition 0 1 0 (le_refl 0) (le_refl 1)⟩

/-- The decoded source image as seen by the extraction effect: the
`ImageData` returned by `getImageData`, with `data` the flat RGBA sample
array (4 entries per pixel, row-major). -/
structure ImageDataQ where
  width : ℕ
  height : ℕ
  data : List ℚ

/-- Reading `data[i]` on a typed array: an in-range index yields the sample,
any other index yields `undefined` (embedded as `none`). -/
def readData (d : List ℚ) (i : ℤ) : Option ℚ :=
  if i < 0 then none else d.get? i.toNat

/-- JavaScript `+` on the accumulator: adding `undefined` or `NaN` poisons
the sum to `NaN` (embedded as `none`), which absorbs all later additions. -/
def nanAdd : Option ℚ → Option ℚ → Option ℚ
  | some a, some b => some (a + b)
  | _, _ => none

/-- JavaScript `/` by a (numeric, nonzero) count: `NaN` stays `NaN`. -/
def nanDiv (a : Option ℚ) (c : ℚ) : Option ℚ := a.map (fun v => v / c)

/-- JavaScript `s > t` for a possibly-`NaN` left operand: any comparison with
`NaN` is false. -/
def gtNum (a : Option ℚ) (t : ℚ) : Bool :=
  match a with
  | some v => decide (t < v)
  | none => false

/-- The integers `s, s+1, ..., e-1`, the iteration domain of
`for (let i = s; i < e; ++i)`. -/
def intRange (s e : ℤ) : List ℤ :=
  (List.range (e - s).toNat).map (fun i : ℕ => s + (i : ℤ))

/-- The inner sampling loop of one output cell, App.tsx lines 380-393:
starting from `rsum = gsum = bsum = 0, count = 0`, for each `iy` in `[sy, ey)`
and `ix` in `[sx, ex)` add `data[(iy*width+ix)*4 + c]` to the three channel
sums and increment `count`. -/
def cellLoop (img : ImageDataQ) (sx ex sy ey : ℤ) :
    Option ℚ × Option ℚ × Option ℚ × ℕ :=
  (intRange sy ey).foldl
    (fun acc iy =>
      (intRange sx ex).foldl
        (fun a ix =>
          (nanAdd a.1 (readData img.data ((iy * (img.width : ℤ) + ix) * 4)),
           nanAdd a.2.1 (readData img.data ((iy * (img.width : ℤ) + ix) * 4 + 1)),
           nanAdd a.2.2.1 (readData img.data ((iy * (img.width : ℤ) + ix) * 4 + 2)),
           a.2.2.2 + 1))
        acc)
    (some 0, some 0, some 0, 0)

/-- The thresholding of one output cell, App.tsx lines 395-399: `on` stays
false when `count = 0`, otherwise it is
`rsum/count > 127 || gsum/count > 127 || bsum/count > 127`. -/
def cellOn (img : ImageDataQ) (sx ex sy ey : ℤ) : Bool :=
  let r := cellLoop img sx ex sy ey
  if r.2.2.2 > 0 then
    gtNum (nanDiv r.1 (r.2.2.2 : ℚ)) 127 ||
    gtNum (nanDiv r.2.1 (r.2.2.2 : ℚ)) 127 ||
    gtNum (nanDiv r.2.2.1 (r.2.2.2 : ℚ)) 127
  else false

/-- The RGBA quadruple written for one output cell, App.tsx lines 401-406:
`value = on ? 255 : 0` in the three colour channels, alpha `255`. -/
def cellRGBA (img : ImageDataQ) (sx ex sy ey : ℤ) : ℚ × ℚ × ℚ × ℚ :=
  ((if cellOn img sx ex sy ey then 255 else 0),
   (if cellOn img sx ex sy ey then 255 else 0),
   (if cellOn img sx ex sy ey then 255 else 0), 255)

/-- Channel `c` of source pixel `(ix, iy)` (total version, for stating means:
out-of-range reads are defaulted, which the in-bounds hypotheses rule out). -/
def pixelChan (img : ImageDataQ) (c : ℕ) (ix iy : ℤ) : ℚ :=
  (readData img.data ((iy * (img.width : ℤ) + ix) * 4 + (c : ℤ))).getD 0

/-- Sum of channel `c` over the sampled rectangle `[sx,ex) × [sy,ey)`. -/
def rectSum (img : ImageDataQ) (c : ℕ) (sx ex sy ey : ℤ) : ℚ :=
  ((intRange sy ey).map
    (fun iy => ((intRange sx ex).map (fun ix => pixelChan img c ix iy)).sum)).sum

/-- Number of sampled pixels of the rectangle `[sx,ex) × [sy,ey)`. -/
def rectArea (sx ex sy ey : ℤ) : ℕ := (ey - sy).toNat * (ex - sx).toNat

lemma mem_intRange {s e x : ℤ} : x ∈ intRange s e ↔ s ≤ x ∧ x < e := by
  unfold intRange
  rw [List.mem_map]
  constructor
  · rintro ⟨i, hi, rfl⟩
    rw [List.mem_range] at hi
    omega
  · intro h
    refine ⟨(x - s).toNat, ?_, by omega⟩
    rw [List.mem_range]
    omega

lemma length_intRange (s e : ℤ) : (intRange s e).length = (e - s).toNat := by
  rw [intRange, List.length_map, List.length_range]

lemma nanAdd_none_left (b : Option ℚ) : nanAdd none b = none := rfl

lemma nanAdd_none_right (a : Option ℚ) : nanAdd a none = none := by
  cases a <;> rfl

/-- A fold of the four-component accumulator splits into independent folds of
the three channel sums plus a count of iterations. -/
lemma tupleFold (l : List ℤ) (f1 f2 f3 : Option ℚ → ℤ → Option ℚ) (n : ℕ) :
    ∀ (r g b : Option ℚ) (c : ℕ),
    l.foldl (fun a x => (f1 a.1 x, f2 a.2.1 x, f3 a.2.2.1 x, a.2.2.2 + n)) (r, g, b, c) =
      (l.foldl f1 r, l.foldl f2 g, l.foldl f3 b, c + n * l.length) := by
  induction l with
  | nil => intro r g b c; simp
  | cons x xs ih =>
    intro r g b c
    simp only [List.foldl_cons, List.length_cons]
    rw [ih]
    have h4 : c + n + n * xs.length = c + n * (xs.length + 1) := by ring
    rw [h4]

/-- Folding an accumulated `some` through steps that each add a numeric value
produces `some` of the total sum. -/
lemma foldl_rows_some (F : Option ℚ → ℤ → Option ℚ) (row : ℤ → ℚ) :
    ∀ l : List ℤ, (∀ (a : ℚ), ∀ x ∈ l, F (some a) x = some (a + row x)) →
    ∀ a : ℚ, l.foldl F (some a) = some (a + (l.map row).sum) := by
  intro l
  induction l with
  | nil => intro _ a; simp
  | cons x xs ih =>
    intro h a
    simp only [List.foldl_cons, List.map_cons, List.sum_cons]
    rw [h a x (List.mem_cons_self x xs), ih (fun a' x' hx' => h a' x' (List.mem_cons_of_mem _ hx')) (a + row x)]
    congr 1
    ring

/-- Once the accumulator is `NaN`, steps that preserve `NaN` keep it `NaN`. -/
lemma foldl_none_stable (F : Option ℚ → ℤ → Option ℚ) :
    ∀ l : List ℤ, (∀ x ∈ l, F none x = none) → l.foldl F none = none := by
  intro l
  induction l with
  | nil => intro _; rfl
  | cons x xs ih =>
    intro h
    simp only [List.foldl_cons]
    rw [h x (List.mem_cons_self x xs)]
    exact ih (fun x' hx' => h x' (List.mem_cons_of_mem _ hx'))

/-- If some step forces `NaN` regardless of the accumulator, and `NaN` is
preserved by every step, the whole fold is `NaN`. -/
lemma foldl_hit_none (F : Option ℚ → ℤ → Option ℚ) :
    ∀ l : List ℤ, (∀ x ∈ l, F none x = none) → (∃ x ∈ l, ∀ a, F a x = none) →
    ∀ a, l.foldl F a = none := by
  intro l
  induction l with
  | nil =>
    rintro _ ⟨x, hx, _⟩ a
    exact absurd hx (List.not_mem_nil x)
  | cons x xs ih =>
    rintro hstab ⟨y, hy, hfy⟩ a
    simp only [List.foldl_cons]
    rcases List.mem_cons.mp hy with h | h
    · subst h
      rw [hfy a]
      exact foldl_none_stable F xs (fun z hz => hstab z (List.mem_cons_of_mem _ hz))
    · exact ih (fun z hz => hstab z (List.mem_cons_of_mem _ hz)) ⟨y, h, hfy⟩ _

/-- The fold computing one channel sum of a cell's sampled rectangle. -/
def chanFold (img : ImageDataQ) (c : ℕ) (sx ex sy ey : ℤ) : Option ℚ :=
  (intRange sy ey).foldl
    (fun r iy =>
      (intRange sx ex).foldl
        (fun a ix => nanAdd a (readData img.data ((iy * (img.width : ℤ) + ix) * 4 + (c : ℤ)))) r)
    (some 0)

/-- The four-component cell loop splits into the three channel folds and the
sampled-pixel count. -/
lemma cellLoop_eq_chanFolds (img : ImageDataQ) (sx ex sy ey : ℤ) :
    cellLoop img sx ex sy ey =
      (chanFold img 0 sx ex sy ey, chanFold img 1 sx ex sy ey,
       chanFold img 2 sx ex sy ey, rectArea sx ex sy ey) := by
  unfold cellLoop
  have hinner : ∀ (acc : Option ℚ × Option ℚ × Option ℚ × ℕ) (iy : ℤ),
      (intRange sx ex).foldl
        (fun a ix =>
          (nanAdd a.1 (readData img.data ((iy * (img.width : ℤ) + ix) * 4)),
           nanAdd a.2.1 (readData img.data ((iy * (img.width : ℤ) + ix) * 4 + 1)),
           nanAdd a.2.2.1 (readData img.data ((iy * (img.width : ℤ) + ix) * 4 + 2)),
           a.2.2.2 + 1)) acc =
      ((intRange sx ex).foldl
          (fun a ix => nanAdd a (readData img.data ((iy * (img.width : ℤ) + ix) * 4))) acc.1,
       (intRange sx ex).foldl
          (fun a ix => nanAdd a (readData img.data ((iy * (img.width : ℤ) + ix) * 4 + 1))) acc.2.1,
       (intRange sx ex).foldl
          (fun a ix => nanAdd a (readData img.data ((iy * (img.width : ℤ) + ix) * 4 + 2))) acc.2.2.1,
       acc.2.2.2 + 1 * (intRange sx ex).length) := by
    intro acc iy
    obtain ⟨r, g, b, c⟩ := acc
    exact tupleFold (intRange sx ex)
      (fun a ix => nanAdd a (readData img.data ((iy * (img.width : ℤ) + ix) * 4)))
      (fun a ix => nanAdd a (readData img.data ((iy * (img.width : ℤ) + ix) * 4 + 1)))
      (fun a ix => nanAdd a (readData img.data ((iy * (img.width : ℤ) + ix) * 4 + 2)))
      1 r g b c
  rw [funext fun acc => funext fun iy => hinner acc iy]
  refine (tupleFold (intRange sy ey)
      (fun r iy => (intRange sx ex).foldl
        (fun a ix => nanAdd a (readData img.data ((iy * (img.width : ℤ) + ix) * 4))) r)
      (fun g iy => (intRange sx ex).foldl
        (fun a ix => nanAdd a (readData img.data ((iy * (img.width : ℤ) + ix) * 4 + 1))) g)
      (fun b iy => (intRange sx ex).foldl
        (fun a ix => nanAdd a (readData img.data ((iy * (img.width : ℤ) + ix) * 4 + 2))) b)
      (1 * (intRange sx ex).length) (some 0) (some 0) (some 0) 0).trans ?_
  unfold chanFold rectArea
  simp only [Nat.cast_zero, Nat.cast_one, Nat.cast_ofNat, add_zero, length_intRange,
    one_mul, zero_add]
  rw [Nat.mul_comm]

/-- An in-bounds sample read returns the pixel's channel value. -/
lemma readData_inbounds (img : ImageDataQ) (c : ℕ) (ix iy : ℤ)
    (hwf : img.data.length = 4 * img.width * img.height) (hc : c ≤ 2)
    (hix1 : 0 ≤ ix) (hix2 : ix < (img.width : ℤ))
    (hiy1 : 0 ≤ iy) (hiy2 : iy < (img.height : ℤ)) :
    readData img.data ((iy * (img.width : ℤ) + ix) * 4 + (c : ℤ)) =
      some (pixelChan img c ix iy) := by
  have hp0 : 0 ≤ iy * (img.width : ℤ) + ix := by
    have := mul_nonneg hiy1 (Int.natCast_nonneg img.width)
    linarith
  have hp1 : iy * (img.width : ℤ) + ix < ((img.width * img.height : ℕ) : ℤ) := by
    have h1 : iy * (img.width : ℤ) + ix < (iy + 1) * (img.width : ℤ) := by
      have : (iy + 1) * (img.width : ℤ) = iy * (img.width : ℤ) + (img.width : ℤ) := by ring
      linarith [this]
    have h2 : (iy + 1) * (img.width : ℤ) ≤ (img.height : ℤ) * (img.width : ℤ) :=
      mul_le_mul_of_nonneg_right (by linarith) (Int.natCast_nonneg img.width)
    push_cast
    nlinarith
  have hi0 : 0 ≤ (iy * (img.width : ℤ) + ix) * 4 + (c : ℤ) := by positivity
  have hq : (img.data.length : ℤ) = 4 * ((img.width * img.height : ℕ) : ℤ) := by
    rw [hwf]
    push_cast
    ring
  have hlen : ((iy * (img.width : ℤ) + ix) * 4 + (c : ℤ)).toNat < img.data.length := by
    omega
  have hsome : (readData img.data ((iy * (img.width : ℤ) + ix) * 4 + (c : ℤ))).isSome := by
    unfold readData
    rw [if_neg (by omega)]
    rw [List.get?_eq_get hlen]
    rfl
  obtain ⟨v, hv⟩ := Option.isSome_iff_exists.mp hsome
  rw [hv]
  unfold pixelChan
  rw [hv]
  rfl

/-- With the rectangle inside the image, a channel fold computes `some` of the
exact rectangle sum. -/
lemma chanFold_inbounds (img : ImageDataQ) (c : ℕ) (sx ex sy ey : ℤ)
    (hwf : img.data.length = 4 * img.width * img.height) (hc : c ≤ 2)
    (hsx : 0 ≤ sx) (hex : ex ≤ (img.width : ℤ))
    (hsy : 0 ≤ sy) (hey : ey ≤ (img.height : ℤ)) :
    chanFold img c sx ex sy ey = some (rectSum img c sx ex sy ey) := by
  unfold chanFold rectSum
  rw [foldl_rows_some _
        (fun iy => ((intRange sx ex).map (fun ix => pixelChan img c ix iy)).sum) _ ?_ 0]
  · rw [zero_add]
  · intro a iy hiy
    have hiy' := mem_intRange.mp hiy
    rw [foldl_rows_some _ (fun ix => pixelChan img c ix iy) _ ?_ a]
    intro a' ix hix
    have hix' := mem_intRange.mp hix
    rw [readData_inbounds img c ix iy hwf hc (by omega) (by omega) (by omega) (by omega)]
    rfl

/-- If some sampled pixel's flat index falls outside the data array, the
channel fold is `NaN`. -/
lemma chanFold_oob (img : ImageDataQ) (c : ℕ) (sx ex sy ey : ℤ) (hc : c ≤ 2)
    (ix0 iy0 : ℤ) (hix : sx ≤ ix0 ∧ ix0 < ex) (hiy : sy ≤ iy0 ∧ iy0 < ey)
    (hoob : iy0 * (img.width : ℤ) + ix0 < 0 ∨
      (img.data.length : ℤ) ≤ (iy0 * (img.width : ℤ) + ix0) * 4) :
    chanFold img c sx ex sy ey = none := by
  have hread : readData img.data ((iy0 * (img.width : ℤ) + ix0) * 4 + (c : ℤ)) = none := by
    unfold readData
    rcases hoob with h | h
    · rw [if_pos (by omega)]
    · rw [if_neg (by omega)]
      exact List.get?_eq_none.mpr (by omega)
  unfold chanFold
  apply foldl_hit_none
  · intro iy _
    exact foldl_none_stable _ _ (fun ix _ => nanAdd_none_left _)
  · refine ⟨iy0, mem_intRange.mpr hiy, fun a => ?_⟩
    apply foldl_hit_none
    · intro ix _
      exact nanAdd_none_left _
    · refine ⟨ix0, mem_intRange.mpr hix, fun a' => ?_⟩
      rw [hread]
      exact nanAdd_none_right a'

/-- C5: Extraction threshold and output encoding — with the sampled rectangle
inside the source image, a cell is "on" iff the rectangle is nonempty and at
least one per-channel mean (channel sum over the sampled pixels divided by the
pixel count) strictly exceeds 127; a zero-area rectangle is "off"; an "on"
cell is written as opaque white `(255,255,255,255)` and an "off" cell as
opaque black `(0,0,0,255)`. -/
theorem extraction_threshold (img : ImageDataQ) (sx ex sy ey : ℤ)
    (hwf : img.data.length = 4 * img.width * img.height)
    (hsx : 0 ≤ sx) (hex : ex ≤ (img.width : ℤ))
    (hsy : 0 ≤ sy) (hey : ey ≤ (img.height : ℤ)) :
    (cellOn img sx ex sy ey = true ↔
      sx < ex ∧ sy < ey ∧
        (127 < rectSum img 0 sx ex sy ey / (rectArea sx ex sy ey : ℚ) ∨
         127 < rectSum img 1 sx ex sy ey / (rectArea sx ex sy ey : ℚ) ∨
         127 < rectSum img 2 sx ex sy ey / (rectArea sx ex sy ey : ℚ))) ∧
    (cellOn img sx ex sy ey = true → cellRGBA img sx ex sy ey = (255, 255, 255, 255)) ∧
    (cellOn img sx ex sy ey = false → cellRGBA img sx ex sy ey = (0, 0, 0, 255)) := by
  refine ⟨?_, fun h => by simp [cellRGBA, h], fun h => by simp [cellRGBA, h]⟩
  simp only [cellOn, cellLoop_eq_chanFolds,
    chanFold_inbounds img 0 sx ex sy ey hwf (by norm_num) hsx hex hsy hey,
    chanFold_inbounds img 1 sx ex sy ey hwf (by norm_num) hsx hex hsy hey,
    chanFold_inbounds img 2 sx ex sy ey hwf (by norm_num) hsx hex hsy hey,
    nanDiv, Option.map_some', gtNum]
  by_cases hA : rectArea sx ex sy ey > 0
  · rw [if_pos hA]
    have hlt : sx < ex ∧ sy < ey := by
      unfold rectArea at hA
      rcases Nat.eq_zero_or_pos (ey - sy).toNat with h0 | h0
      · rw [h0, Nat.zero_mul] at hA
        exact absurd hA (lt_irrefl 0)
      rcases Nat.eq_zero_or_pos (ex - sx).toNat with h1 | h1
      · rw [h1, Nat.mul_zero] at hA
        exact absurd hA (lt_irrefl 0)
      omega
    simp only [Bool.or_eq_true, decide_eq_true_eq]
    constructor
    · intro hdisj
      exact ⟨hlt.1, hlt.2, by tauto⟩
    · rintro ⟨-, -, hdisj⟩
      tauto
  · rw [if_neg hA]
    constructor
    · intro hfalse
      exact absurd hfalse (by simp)
    · rintro ⟨hxlt, hylt, -⟩
      exact absurd (by unfold rectArea; exact Nat.mul_pos (by omega) (by omega)) hA

/-- A 1×1 all-white source image, for the extraction witnesses. -/
def whitePixelImg : ImageDataQ := ⟨1, 1, [255, 255, 255, 255]⟩

/-- Witness for C5 on a 1×1 white image sampled by the cell `[0,1) × [0,1)`. -/
theorem extraction_threshold_witness :
    (cellOn whitePixelImg 0 1 0 1 = true ↔
      (0 : ℤ) < 1 ∧ (0 : ℤ) < 1 ∧
        (127 < rectSum whitePixelImg 0 0 1 0 1 / (rectArea 0 1 0 1 : ℚ) ∨
         127 < rectSum whitePixelImg 1 0 1 0 1 / (rectArea 0 1 0 1 : ℚ) ∨
         127 < rectSum whitePixelImg 2 0 1 0 1 / (rectArea 0 1 0 1 : ℚ))) ∧
    (cellOn whitePixelImg 0 1 0 1 = true → cellRGBA whitePixelImg 0 1 0 1 = (255, 255, 255, 255)) ∧
    (cellOn whitePixelImg 0 1 0 1 = false → cellRGBA whitePixelImg 0 1 0 1 = (0, 0, 0, 255)) :=
  extraction_threshold whitePixelImg 0 1 0 1 rfl (by norm_num)
    (by norm_num [whitePixelImg]) (by norm_num) (by norm_num [whitePixelImg])

/-- C10 (amended): if some sampled coordinate's flat pixel index
`iy*width + ix` falls outside the underlying data array (negative, or at or
beyond `data.length/4`), the affected channel sums are `NaN`, every strict
comparison with 127 is false, and the cell is output "off" (opaque black);
such sampling never yields an "on" cell.  (A sampled coordinate outside the
image whose flat index still lands inside the array — row wrap-around — is
NOT forced "off"; see the counterexample.) -/
theorem oob_forces_off (img : ImageDataQ) (sx ex sy ey : ℤ)
    (h : ∃ ix iy : ℤ, (sx ≤ ix ∧ ix < ex) ∧ (sy ≤ iy ∧ iy < ey) ∧
      (iy * (img.width : ℤ) + ix < 0 ∨
        (img.data.length : ℤ) ≤ (iy * (img.width : ℤ) + ix) * 4)) :
    cellOn img sx ex sy ey = false ∧ cellRGBA img sx ex sy ey = (0, 0, 0, 255) := by
  obtain ⟨ix0, iy0, hix, hiy, hoob⟩ := h
  have h0 := chanFold_oob img 0 sx ex sy ey (by norm_num) ix0 iy0 hix hiy hoob
  have h1 := chanFold_oob img 1 sx ex sy ey (by norm_num) ix0 iy0 hix hiy hoob
  have h2 := chanFold_oob img 2 sx ex sy ey (by norm_num) ix0 iy0 hix hiy hoob
  have hoff : cellOn img sx ex sy ey = false := by
    simp only [cellOn, cellLoop_eq_chanFolds, h0, h1, h2]
    simp [nanDiv, gtNum]
  exact ⟨hoff, by simp [cellRGBA, hoff]⟩

/-- Witness for C10 (amended): the 1×1 white image sampled by the cell
`[0,1) × [1,2)` — the sampled pixel `(0,1)` has flat index `1`, whose byte
index `4` is past the 4-entry data array. -/
theorem oob_forces_off_witness :
    cellOn whitePixelImg 0 1 1 2 = false ∧ cellRGBA whitePixelImg 0 1 1 2 = (0, 0, 0, 255) :=
  oob_forces_off whitePixelImg 0 1 1 2
    ⟨0, 1, ⟨le_refl 0, by norm_num⟩, ⟨le_refl 1, by norm_num⟩,
      Or.inr (by norm_num [whitePixelImg])⟩

/-- A 3×2 all-white source image, for the out-of-bounds counterexample. -/
def whiteImg3x2 : ImageDataQ := ⟨3, 2, List.replicate 24 255⟩

/-- C10 counterexample: on a 3×2 all-white image with `gridOffset = (1/2, 0)`
and `cellSize = (5/2, 1)`, cell `(0,0)` exists (`pixelsWidth = 1`) and its
rounded bounds are `[1,4) × [0,1)`, so the sampled coordinate `(3,0)` lies
outside the image (`ix = 3 ≥ width = 3`); yet its flat index
`(0*3+3)*4 = 12` is inside the 24-entry data array (it aliases pixel `(0,1)`
of the next row), the sums stay numeric, and the cell is output "on" (opaque
white) — contradicting the claim that out-of-bounds sampling never produces
an "on" cell. -/
theorem oob_sampling_cex :
    extract_sx (1 / 2) (5 / 2) 0 = 1 ∧ extract_ex (1 / 2) (5 / 2) 0 = 4 ∧
    extract_sx 0 1 0 = 0 ∧ extract_ex 0 1 0 = 1 ∧
    (extract_pixelsCount ⟨(3, 2), (500, 500), (5 / 2, 1), (1 / 2, 0), 1⟩).1 = 1 ∧
    ((whiteImg3x2.width : ℤ) ≤ 3 ∧ (3 : ℤ) < 4) ∧
    cellOn whiteImg3x2 1 4 0 1 = true ∧
    cellRGBA whiteImg3x2 1 4 0 1 = (255, 255, 255, 255) := by
  have hon : cellOn whiteImg3x2 1 4 0 1 = true := by
    have hread : ∀ i : ℤ, 0 ≤ i → i < 24 →
        readData (List.replicate 24 (255 : ℚ)) i = some 255 := by
      intro i hi1 hi2
      unfold readData
      rw [if_neg (by omega), List.get?_eq_getElem?, List.getElem?_replicate, if_pos (by omega)]
    have h1 : intRange 1 4 = [1, 2, 3] := by decide
    have h2 : intRange 0 1 = [0] := by decide
    simp only [cellOn, cellLoop, h1, h2, List.foldl_cons, List.foldl_nil, whiteImg3x2]
    norm_num [hread, nanAdd, nanDiv, gtNum]
  refine ⟨?_, ?_, ?_, ?_, ?_, ⟨by norm_num [whiteImg3x2], by norm_num⟩, hon, ?_⟩
  · show mathRound ((1 : ℚ) / 2 + (0 : ℕ) * (5 / 2)) = 1
    unfold mathRound
    norm_num
  · show mathRound ((extract_sx (1 / 2) (5 / 2) 0 : ℤ) + 5 / 2) = 4
    have hsx : extract_sx (1 / 2) (5 / 2) 0 = 1 := by
      show mathRound ((1 : ℚ) / 2 + (0 : ℕ) * (5 / 2)) = 1
      unfold mathRound
      norm_num
    rw [hsx]
    unfold mathRound
    norm_num
  · show mathRound ((0 : ℚ) + (0 : ℕ) * 1) = 0
    unfold mathRound
    norm_num
  · show mathRound ((extract_sx 0 1 0 : ℤ) + 1) = 1
    have hsx : extract_sx 0 1 0 = 0 := by
      show mathRound ((0 : ℚ) + (0 : ℕ) * 1) = 0
      unfold mathRound
      norm_num
    rw [hsx]
    unfold mathRound
    norm_num
  · show min (500 : ℚ) ((⌊((3 : ℚ) - 1 / 2) / (5 / 2)⌋ : ℤ) : ℚ) = 1
    norm_num
  · simp [cellRGBA, hon]

/-- The line-placing loop of canvas2DRenderer.ts (lines 37-44 and 46-53):
`for (let x = x0, k = 0; x < w && k <= cnt; x += step, ++k)` collect `x`.
Structured with explicit fuel so the loop is computable; the loop's own
`k <= cnt` condition bounds the iteration count, so `⌊cnt⌋ + 1` units of fuel
never run out (established by `strokeLoopAux_spec` below). -/
def strokeLoopAux : ℕ → ℚ → ℚ → ℚ → ℕ → ℚ → List ℚ
  | 0, _, _, _, _, _ => []
  | fuel + 1, w, step, cnt, k, x =>
    if x < w ∧ (k : ℚ) ≤ cnt then x :: strokeLoopAux fuel w step cnt (k + 1) (x + step)
    else []

/-- The loop of canvas2DRenderer.ts started at `k = 0, x = x0`. -/
def strokeXs (w step cnt x0 : ℚ) : List ℚ :=
  strokeLoopAux (⌊cnt⌋.toNat + 1) w step cnt 0 x0

/-- The x positions at which `renderGrid` places vertical lines (lines 37-44):
start `renderScale * gridOffset.x`, step `renderScale * cellSize.x`, bounded by
`x < canvas.width` (`= canvasSize.x * renderScale`) and `k ≤ gridPixels.x`. -/
def renderGrid_vertXs (p : GridParams) : List ℚ :=
  strokeXs (p.canvasSize.1 * p.renderScale) (p.renderScale * p.cellSize.1)
    (renderGrid_gridPixels p).1 (p.renderScale * p.gridOffset.1)

/-- The y positions at which `renderGrid` places horizontal lines (lines 46-53). -/
def renderGrid_horizYs (p : GridParams) : List ℚ :=
  strokeXs (p.canvasSize.2 * p.renderScale) (p.renderScale * p.cellSize.2)
    (renderGrid_gridPixels p).2 (p.renderScale * p.gridOffset.2)

/-- The vertical line segments of `renderGrid`: each at `x + 0.5`, spanning
`renderScale * gridOffset.y` to `renderScale * gridEnd.y` (lines 42-43). -/
def renderGrid_vertSegs (p : GridParams) : List ((ℚ × ℚ) × (ℚ × ℚ)) :=
  (renderGrid_vertXs p).map (fun x =>
    ((x + 1 / 2, p.renderScale * p.gridOffset.2),
     (x + 1 / 2, p.renderScale * (renderGrid_gridEnd p).2)))

/-- The horizontal line segments of `renderGrid`: each at `y + 0.5`, spanning
`renderScale * gridOffset.x` to `renderScale * gridEnd.x` (lines 51-52). -/
def renderGrid_horizSegs (p : GridParams) : List ((ℚ × ℚ) × (ℚ × ℚ)) :=
  (renderGrid_horizYs p).map (fun y =>
    ((p.renderScale * p.gridOffset.1, y + 1 / 2),
     (p.renderScale * (renderGrid_gridEnd p).1, y + 1 / 2)))

/-- One `stroke()` call: the stroke style, the dash pattern set by
`setLineDash` (empty = solid), and the path segments stroked. -/
structure StrokePass where
  color : String
  dash : List ℚ
  segs : List ((ℚ × ℚ) × (ℚ × ℚ))

/-- The observable state of the 2D target surface: its dimensions and the
stroke passes drawn since the last resize (resizing clears the pixels). -/
structure Canvas2D where
  width : ℚ
  height : ℚ
  passes : List StrokePass

/-- canvas2DRenderer.ts `renderGrid`, as a function of the previous surface
state: lines 7-8 resize the surface (`canvasSize * renderScale`), which
destroys its prior contents; line 10-14 then abandon the call if no 2D
context is available (`ctxOk = false`); otherwise the grid path is stroked
black solid, then white dashed `[1,1]`, and the first row/column is re-stroked
cyan dashed (lines 16-73). -/
def renderGrid_model (ctxOk : Bool) (c : Canvas2D) (p : GridParams) : Canvas2D :=
  let resized : Canvas2D :=
    ⟨p.canvasSize.1 * p.renderScale, p.canvasSize.2 * p.renderScale, []⟩
  if ctxOk then
    ⟨resized.width, resized.height,
      [⟨"black", [], renderGrid_vertSegs p ++ renderGrid_horizSegs p⟩,
       ⟨"white", [1, 1], renderGrid_vertSegs p ++ renderGrid_horizSegs p⟩,
       ⟨"cyan", [1, 1],
         [((p.renderScale * p.gridOffset.1 + 1 / 2, p.renderScale * p.gridOffset.2),
           (p.renderScale * p.gridOffset.1 + 1 / 2, p.renderScale * (renderGrid_gridEnd p).2)),
          ((p.renderScale * p.gridOffset.1, p.renderScale * p.gridOffset.2 + 1 / 2),
           (p.renderScale * (renderGrid_gridEnd p).1, p.renderScale * p.gridOffset.2 + 1 / 2))]⟩]⟩
  else resized

/-- The loop characterization: if the first `n` positions pass both loop
conditions and iteration `n` fails one of them, the loop emits exactly the
arithmetic progression of the first `n` positions, and `n` units of fuel
suffice. -/
lemma strokeLoopAux_spec (w step cnt : ℚ) :
    ∀ (n fuel k : ℕ) (x : ℚ), n ≤ fuel →
    ((k : ℚ) + (n : ℚ) ≤ cnt + 1) →
    (∀ i : ℕ, i < n → x + (i : ℚ) * step < w) →
    (cnt < (k : ℚ) + (n : ℚ) ∨ ¬(x + (n : ℚ) * step < w)) →
    strokeLoopAux fuel w step cnt k x = (List.range n).map (fun i : ℕ => x + (i : ℚ) * step) := by
  intro n
  induction n with
  | zero =>
    intro fuel k x _ _ _ hstop
    have hcond : ¬(x < w ∧ (k : ℚ) ≤ cnt) := by
      rcases hstop with h | h
      · push_cast at h
        intro hc
        linarith [hc.2]
      · push_cast at h
        intro hc
        exact h (by linarith [hc.1])
    cases fuel with
    | zero => simp [strokeLoopAux]
    | succ f => simp [strokeLoopAux, hcond]
  | succ m ih =>
    intro fuel k x hfuel hbound hall hstop
    obtain ⟨f, rfl⟩ : ∃ f, fuel = f + 1 := ⟨fuel - 1, by omega⟩
    have hc1 : x < w := by
      have := hall 0 (Nat.succ_pos m)
      simpa using this
    have hc2 : (k : ℚ) ≤ cnt := by
      push_cast at hbound
      have : (0 : ℚ) ≤ (m : ℚ) := Nat.cast_nonneg m
      linarith
    show (if x < w ∧ (k : ℚ) ≤ cnt then
        x :: strokeLoopAux f w step cnt (k + 1) (x + step) else []) =
      (List.range (m + 1)).map (fun i : ℕ => x + (i : ℚ) * step)
    rw [if_pos ⟨hc1, hc2⟩]
    rw [ih f (k + 1) (x + step) (by omega) ?_ ?_ ?_]
    · rw [List.range_succ_eq_map]
      simp only [List.map_cons, List.map_map]
      congr 1
      · norm_num
      · apply List.map_congr_left
        intro i _
        simp only [Function.comp_apply]
        push_cast
        ring
    · push_cast
      push_cast at hbound
      linarith
    · intro i hi
      have h1 := hall (i + 1) (by omega)
      have h2 : x + ((i : ℚ) + 1) * step = x + step + (i : ℚ) * step := by ring
      push_cast at h1
      linarith [h1, h2.symm.le]
    · rcases hstop with h | h
      · left
        push_cast
        push_cast at h
        linarith
      · right
        intro hcon
        apply h
        push_cast
        push_cast at hcon
        linarith

/-- With an integer count `n ≥ 0` and the last position strictly inside the
surface, the loop emits all `n + 1` positions. -/
lemma strokeXs_all (w step : ℚ) (n : ℤ) (x0 : ℚ) (hstep : 0 < step) (hn : 0 ≤ n)
    (hend : x0 + (n : ℚ) * step < w) :
    strokeXs w step (n : ℚ) x0 =
      (List.range (n.toNat + 1)).map (fun i : ℕ => x0 + (i : ℚ) * step) := by
  unfold strokeXs
  rw [Int.floor_intCast]
  have hcast : ((n.toNat : ℕ) : ℚ) = (n : ℚ) := by
    exact_mod_cast Int.toNat_of_nonneg hn
  refine strokeLoopAux_spec w step (n : ℚ) (n.toNat + 1) (n.toNat + 1) 0 x0 le_rfl ?_ ?_ ?_
  · push_cast
    rw [hcast]
    norm_num
  · intro i hi
    have hle : (i : ℚ) ≤ (n : ℚ) := by
      rw [← hcast]
      exact_mod_cast Nat.lt_succ_iff.mp hi
    have := mul_le_mul_of_nonneg_right hle (le_of_lt hstep)
    linarith
  · left
    push_cast
    rw [hcast]
    norm_num

/-- With an integer count `n ≥ 0` and the last position exactly at the surface
edge, the loop's `x < canvas.width` test drops the final line: only `n`
positions are emitted. -/
lemma strokeXs_boundary (w step : ℚ) (n : ℤ) (x0 : ℚ) (hstep : 0 < step) (hn : 0 ≤ n)
    (hend : x0 + (n : ℚ) * step = w) :
    strokeXs w step (n : ℚ) x0 =
      (List.range n.toNat).map (fun i : ℕ => x0 + (i : ℚ) * step) := by
  unfold strokeXs
  rw [Int.floor_intCast]
  have hcast : ((n.toNat : ℕ) : ℚ) = (n : ℚ) := by
    exact_mod_cast Int.toNat_of_nonneg hn
  refine strokeLoopAux_spec w step (n : ℚ) n.toNat (n.toNat + 1) 0 x0 (by omega) ?_ ?_ ?_
  · push_cast
    rw [hcast]
    linarith
  · intro i hi
    have hlt : (i : ℚ) < (n : ℚ) := by
      rw [← hcast]
      exact_mod_cast hi
    have := mul_lt_mul_of_pos_right hlt hstep
    linarith
  · right
    rw [hcast, hend]
    exact lt_irrefl w

lemma cellCountAxis_intCast (canv cs off : ℚ) (m : ℤ) :
    cellCountAxis canv (m : ℚ) cs off = ((min m ⌊(canv - off) / cs⌋ : ℤ) : ℚ) := by
  unfold cellCountAxis
  rw [Int.cast_min]

/-- C6 (amended): with positive cell sizes, positive render scale, integer
`maxCells` and nonnegative cell counts, `renderGrid` strokes vertical lines at
`renderScale*gridOffset.x + k*(renderScale*cellSize.x) + 0.5` spanning
`renderScale*gridOffset.y` to `renderScale*gridEnd.y` (and symmetrically
horizontal lines) — `cellCount + 1` of them when `gridExtent < canvasSize`
strictly, but only `cellCount` when `gridExtent = canvasSize`: the loop bound
`x < canvas.width` drops the final line exactly at the boundary. -/
theorem renderGrid_line_count (p : GridParams) (m1 m2 : ℤ)
    (hm1 : p.maxCells.1 = (m1 : ℚ)) (hm2 : p.maxCells.2 = (m2 : ℚ))
    (hcs1 : 0 < p.cellSize.1) (hcs2 : 0 < p.cellSize.2) (hrs : 0 < p.renderScale)
    (hn1 : 0 ≤ (renderGrid_gridPixels p).1) (hn2 : 0 ≤ (renderGrid_gridPixels p).2) :
    ((renderGrid_gridEnd p).1 < p.canvasSize.1 →
      renderGrid_vertSegs p =
        (List.range ((min m1 ⌊(p.canvasSize.1 - p.gridOffset.1) / p.cellSize.1⌋).toNat + 1)).map
          (fun k : ℕ =>
            ((p.renderScale * p.gridOffset.1 + (k : ℚ) * (p.renderScale * p.cellSize.1) + 1 / 2,
              p.renderScale * p.gridOffset.2),
             (p.renderScale * p.gridOffset.1 + (k : ℚ) * (p.renderScale * p.cellSize.1) + 1 / 2,
              p.renderScale * (renderGrid_gridEnd p).2)))) ∧
    ((renderGrid_gridEnd p).1 = p.canvasSize.1 →
      renderGrid_vertSegs p =
        (List.range (min m1 ⌊(p.canvasSize.1 - p.gridOffset.1) / p.cellSize.1⌋).toNat).map
          (fun k : ℕ =>
            ((p.renderScale * p.gridOffset.1 + (k : ℚ) * (p.renderScale * p.cellSize.1) + 1 / 2,
              p.renderScale * p.gridOffset.2),
             (p.renderScale * p.gridOffset.1 + (k : ℚ) * (p.renderScale * p.cellSize.1) + 1 / 2,
              p.renderScale * (renderGrid_gridEnd p).2)))) ∧
    ((renderGrid_gridEnd p).2 < p.canvasSize.2 →
      renderGrid_horizSegs p =
        (List.range ((min m2 ⌊(p.canvasSize.2 - p.gridOffset.2) / p.cellSize.2⌋).toNat + 1)).map
          (fun k : ℕ =>
            ((p.renderScale * p.gridOffset.1,
              p.renderScale * p.gridOffset.2 + (k : ℚ) * (p.renderScale * p.cellSize.2) + 1 / 2),
             (p.renderScale * (renderGrid_gridEnd p).1,
              p.renderScale * p.gridOffset.2 + (k : ℚ) * (p.renderScale * p.cellSize.2) + 1 / 2)))) ∧
    ((renderGrid_gridEnd p).2 = p.canvasSize.2 →
      renderGrid_horizSegs p =
        (List.range (min m2 ⌊(p.canvasSize.2 - p.gridOffset.2) / p.cellSize.2⌋).toNat).map
          (fun k : ℕ =>
            ((p.renderScale * p.gridOffset.1,
              p.renderScale * p.gridOffset.2 + (k : ℚ) * (p.renderScale * p.cellSize.2) + 1 / 2),
             (p.renderScale * (renderGrid_gridEnd p).1,
              p.renderScale * p.gridOffset.2 + (k : ℚ) * (p.renderScale * p.cellSize.2) + 1 / 2)))) := by
  have hc1 : (renderGrid_gridPixels p).1 =
      ((min m1 ⌊(p.canvasSize.1 - p.gridOffset.1) / p.cellSize.1⌋ : ℤ) : ℚ) := by
    rw [renderGrid_gridPixels_fst, hm1, cellCountAxis_intCast]
  have hc2 : (renderGrid_gridPixels p).2 =
      ((min m2 ⌊(p.canvasSize.2 - p.gridOffset.2) / p.cellSize.2⌋ : ℤ) : ℚ) := by
    rw [renderGrid_gridPixels_snd, hm2, cellCountAxis_intCast]
  have hn1' : (0 : ℤ) ≤ min m1 ⌊(p.canvasSize.1 - p.gridOffset.1) / p.cellSize.1⌋ := by
    rw [hc1] at hn1
    exact_mod_cast hn1
  have hn2' : (0 : ℤ) ≤ min m2 ⌊(p.canvasSize.2 - p.gridOffset.2) / p.cellSize.2⌋ := by
    rw [hc2] at hn2
    exact_mod_cast hn2
  have hext1 : (renderGrid_gridEnd p).1 =
      p.gridOffset.1 + p.cellSize.1 *
        ((min m1 ⌊(p.canvasSize.1 - p.gridOffset.1) / p.cellSize.1⌋ : ℤ) : ℚ) := by
    show p.gridOffset.1 + p.cellSize.1 * (renderGrid_gridPixels p).1 = _
    rw [hc1]
  have hext2 : (renderGrid_gridEnd p).2 =
      p.gridOffset.2 + p.cellSize.2 *
        ((min m2 ⌊(p.canvasSize.2 - p.gridOffset.2) / p.cellSize.2⌋ : ℤ) : ℚ) := by
    show p.gridOffset.2 + p.cellSize.2 * (renderGrid_gridPixels p).2 = _
    rw [hc2]
  refine ⟨fun hlt => ?_, fun heq => ?_, fun hlt => ?_, fun heq => ?_⟩
  · have hxs := strokeXs_all (p.canvasSize.1 * p.renderScale) (p.renderScale * p.cellSize.1)
      (min m1 ⌊(p.canvasSize.1 - p.gridOffset.1) / p.cellSize.1⌋)
      (p.renderScale * p.gridOffset.1) (mul_pos hrs hcs1) hn1'
      (by rw [hext1] at hlt; nlinarith [mul_lt_mul_of_pos_left hlt hrs])
    unfold renderGrid_vertSegs renderGrid_vertXs
    rw [hc1, hxs, List.map_map]
    rfl
  · have hxs := strokeXs_boundary (p.canvasSize.1 * p.renderScale) (p.renderScale * p.cellSize.1)
      (min m1 ⌊(p.canvasSize.1 - p.gridOffset.1) / p.cellSize.1⌋)
      (p.renderScale * p.gridOffset.1) (mul_pos hrs hcs1) hn1'
      (by rw [hext1] at heq; nlinarith [heq])
    unfold renderGrid_vertSegs renderGrid_vertXs
    rw [hc1, hxs, List.map_map]
    rfl
  · have hxs := strokeXs_all (p.canvasSize.2 * p.renderScale) (p.renderScale * p.cellSize.2)
      (min m2 ⌊(p.canvasSize.2 - p.gridOffset.2) / p.cellSize.2⌋)
      (p.renderScale * p.gridOffset.2) (mul_pos hrs hcs2) hn2'
      (by rw [hext2] at hlt; nlinarith [mul_lt_mul_of_pos_left hlt hrs])
    unfold renderGrid_horizSegs renderGrid_horizYs
    rw [hc2, hxs, List.map_map]
    rfl
  · have hxs := strokeXs_boundary (p.canvasSize.2 * p.renderScale) (p.renderScale * p.cellSize.2)
      (min m2 ⌊(p.canvasSize.2 - p.gridOffset.2) / p.cellSize.2⌋)
      (p.renderScale * p.gridOffset.2) (mul_pos hrs hcs2) hn2'
      (by rw [hext2] at heq; nlinarith [heq])
    unfold renderGrid_horizSegs renderGrid_horizYs
    rw [hc2, hxs, List.map_map]
    rfl

/-- Witness for C6 (amended) at `canvasSize=(101,103)`, `maxCells=(8,8)`,
`cellSize=(20,20)`, `gridOffset=(0,0)`, `renderScale=1`: the extent 100 is
strictly inside, so all `5 + 1 = 6` vertical lines are stroked. -/
theorem renderGrid_line_count_witness :
    (renderGrid_vertSegs ⟨(101, 103), (8, 8), (20, 20), (0, 0), 1⟩).length = 6 := by
  have hn1 : (0 : ℚ) ≤ (renderGrid_gridPixels ⟨(101, 103), (8, 8), (20, 20), (0, 0), 1⟩).1 := by
    show (0 : ℚ) ≤ min 8 ((⌊((101 : ℚ) - 0) / 20⌋ : ℤ) : ℚ)
    norm_num
  have hn2 : (0 : ℚ) ≤ (renderGrid_gridPixels ⟨(101, 103), (8, 8), (20, 20), (0, 0), 1⟩).2 := by
    show (0 : ℚ) ≤ min 8 ((⌊((103 : ℚ) - 0) / 20⌋ : ℤ) : ℚ)
    norm_num
  have hext : (renderGrid_gridEnd ⟨(101, 103), (8, 8), (20, 20), (0, 0), 1⟩).1 < 101 := by
    show (0 : ℚ) + 20 * min 8 ((⌊((101 : ℚ) - 0) / 20⌋ : ℤ) : ℚ) < 101
    norm_num
  have h := (renderGrid_line_count ⟨(101, 103), (8, 8), (20, 20), (0, 0), 1⟩ 8 8
    (by norm_num) (by norm_num) (by norm_num) (by norm_num) (by norm_num) hn1 hn2).1 hext
  rw [h, List.length_map, List.length_range]
  show (min (8 : ℤ) ⌊((101 : ℚ) - 0) / 20⌋).toNat + 1 = 6
  rw [show (⌊((101 : ℚ) - 0) / 20⌋ : ℤ) = 5 by norm_num]
  rfl

/-- C6 counterexample: at the spec's own example `canvasSize=(100,100)`,
`maxCells=(8,8)`, `cellSize=(20,20)`, `gridOffset=(0,0)` (`renderScale=1`),
the cell count is 5 and `gridExtent = 100 = canvasSize`, so the loop bound
`x < canvas.width` drops the line at 100: only 5 vertical and 5 horizontal
lines are stroked, not `cellCount + 1 = 6`. -/
theorem renderGrid_line_count_cex :
    (renderGrid_gridPixels ⟨(100, 100), (8, 8), (20, 20), (0, 0), 1⟩).1 = 5 ∧
    (renderGrid_gridEnd ⟨(100, 100), (8, 8), (20, 20), (0, 0), 1⟩).1 = 100 ∧
    (renderGrid_vertSegs ⟨(100, 100), (8, 8), (20, 20), (0, 0), 1⟩).length = 5 ∧
    (renderGrid_horizSegs ⟨(100, 100), (8, 8), (20, 20), (0, 0), 1⟩).length = 5 ∧
    (5 : ℕ) ≠ 5 + 1 := by
  have hc1 : (renderGrid_gridPixels ⟨(100, 100), (8, 8), (20, 20), (0, 0), 1⟩).1 =
      ((5 : ℤ) : ℚ) := by
    show min (8 : ℚ) ((⌊((100 : ℚ) - 0) / 20⌋ : ℤ) : ℚ) = ((5 : ℤ) : ℚ)
    norm_num
  have hc2 : (renderGrid_gridPixels ⟨(100, 100), (8, 8), (20, 20), (0, 0), 1⟩).2 =
      ((5 : ℤ) : ℚ) := by
    show min (8 : ℚ) ((⌊((100 : ℚ) - 0) / 20⌋ : ℤ) : ℚ) = ((5 : ℤ) : ℚ)
    norm_num
  have hv : renderGrid_vertXs ⟨(100, 100), (8, 8), (20, 20), (0, 0), 1⟩ =
      (List.range 5).map (fun i : ℕ => (1 : ℚ) * 0 + (i : ℚ) * ((1 : ℚ) * 20)) := by
    unfold renderGrid_vertXs
    rw [hc1]
    rw [strokeXs_boundary ((100 : ℚ) * 1) ((1 : ℚ) * 20) 5 ((1 : ℚ) * 0)
      (by norm_num) (by norm_num) (by norm_num)]
    rfl
  have hh : renderGrid_horizYs ⟨(100, 100), (8, 8), (20, 20), (0, 0), 1⟩ =
      (List.range 5).map (fun i : ℕ => (1 : ℚ) * 0 + (i : ℚ) * ((1 : ℚ) * 20)) := by
    unfold renderGrid_horizYs
    rw [hc2]
    rw [strokeXs_boundary ((100 : ℚ) * 1) ((1 : ℚ) * 20) 5 ((1 : ℚ) * 0)
      (by norm_num) (by norm_num) (by norm_num)]
    rfl
  refine ⟨by rw [hc1]; norm_num, ?_, ?_, ?_, by norm_num⟩
  · show (0 : ℚ) + 20 * (renderGrid_gridPixels ⟨(100, 100), (8, 8), (20, 20), (0, 0), 1⟩).1 = 100
    rw [hc1]
    norm_num
  · unfold renderGrid_vertSegs
    rw [List.length_map, hv, List.length_map, List.length_range]
  · unfold renderGrid_horizSegs
    rw [List.length_map, hh, List.length_map, List.length_range]

/-- C7 counterexample: with no 2D context available, `renderGrid` is not a
no-op: the surface (initially 5×5) has already been resized to
`canvasSize * renderScale = 7×9` — which clears its pixels — before the
context check returns. -/
theorem renderGrid_noop_cex :
    (renderGrid_model false ⟨5, 5, []⟩ ⟨(7, 9), (1, 1), (1, 1), (0, 0), 1⟩).width = 7 ∧
    (⟨5, 5, []⟩ : Canvas2D).width = 5 ∧
    renderGrid_model false ⟨5, 5, []⟩ ⟨(7, 9), (1, 1), (1, 1), (0, 0), 1⟩ ≠ ⟨5, 5, []⟩ := by
  refine ⟨by norm_num [renderGrid_model], rfl, ?_⟩
  intro h
  have hw := congrArg Canvas2D.width h
  norm_num [renderGrid_model] at hw

/-- C7 (amended): when the target surface cannot produce a 2D context,
`renderGrid` raises no error and performs no drawing, but it is not a complete
no-op: the surface has already been resized to `canvasSize * renderScale`
(lines 7-8, destroying its prior dimensions and pixel contents) before the
context check returns; only the drawing steps are skipped. -/
theorem renderGrid_noop (c : Canvas2D) (p : GridParams) :
    renderGrid_model false c p =
      ⟨p.canvasSize.1 * p.renderScale, p.canvasSize.2 * p.renderScale, []⟩ := rfl

/-- The two shader stages passed to `loadShader` (`gl.VERTEX_SHADER` /
`gl.FRAGMENT_SHADER`). -/
inductive ShaderType where
  | vertex
  | fragment
deriving DecidableEq

/-- `WebGLError` from webGLRenderer.ts (lines 47-52): the distinguishable
initialization error; its `name` is always "WebGLError", so only the message
varies. -/
structure WebGLError where
  message : String
deriving DecidableEq

/-- The outcomes the WebGL host can produce for the renderer's construction
steps: context acquisition, per-stage shader creation and compilation (with
the compiler's info log), program creation and linking (with the linker's
info log), buffer creation, and attribute/uniform location resolution. -/
structure GLEnv where
  contextOk : Bool
  createShaderOk : ShaderType → Bool
  compileOk : ShaderType → Bool
  shaderInfoLog : ShaderType → String
  createProgramOk : Bool
  linkOk : Bool
  programInfoLog : String
  createBufferOk : Bool
  attribLoc : String → ℤ
  uniformLoc : String → ℕ

/-- webGLRenderer.ts `loadShader` (lines 55-83): throw if the shader object
cannot be created; compile; on compile failure embed the compiler info log in
the error message and throw.  (The GLSL source text does not influence the
control flow modelled here.) -/
def loadShader (env : GLEnv) (t : ShaderType) : Except WebGLError ShaderType :=
  if env.createShaderOk t = false then .error ⟨"Failed to create shader."⟩
  else if env.compileOk t = false then
    .error ⟨"An error occurred compiling the shaders: " ++ env.shaderInfoLog t ++ "."⟩
  else .ok t

/-- webGLRenderer.ts `createShaderProgram` (lines 85-124): load the vertex
then the fragment shader, create the program, link; on link failure embed the
linker info log in the error message and throw. -/
def createShaderProgram (env : GLEnv) : Except WebGLError Unit :=
  match loadShader env .vertex with
  | .error e => .error e
  | .ok _ =>
    match loadShader env .fragment with
    | .error e => .error e
    | .ok _ =>
      if env.createProgramOk = false then .error ⟨"Failed to create shader program."⟩
      else if env.linkOk = false then
        .error ⟨"Unable to initialize the shader program: " ++ env.programInfoLog ++ "."⟩
      else .ok ()

/-- `GridRendererProgramInfo` (lines 126-136): the compiled program's resolved
attribute and uniform locations. -/
structure GridRendererProgramInfo where
  vertexPosition : ℤ
  gridBottomLeft : ℕ
  gridCellSize : ℕ
  gridCellCount : ℕ
deriving DecidableEq

/-- webGLRenderer.ts `createGridRendererProgram` (lines 138-154). -/
def createGridRendererProgram (env : GLEnv) : Except WebGLError GridRendererProgramInfo :=
  match createShaderProgram env with
  | .error e => .error e
  | .ok _ =>
    .ok ⟨env.attribLoc "aVertexPosition", env.uniformLoc "uGridBottomLeft",
         env.uniformLoc "uGridCellSize", env.uniformLoc "uGridCellCount"⟩

/-- The static full-screen quad uploaded to the position buffer
(lines 174-183). -/
def quadVerts : List ℚ := [1, 1, -1, 1, 1, -1, -1, -1]

/-- webGLRenderer.ts `createGridRendererBuffers` (lines 160-188). -/
def createGridRendererBuffers (env : GLEnv) : Except WebGLError (List ℚ) :=
  if env.createBufferOk = false then .error ⟨"Failed to create position buffer"⟩
  else .ok quadVerts

/-- A fully constructed `GridRenderer`: program info (with locations) plus the
allocated quad vertex buffer. -/
structure GridRendererState where
  programInfo : GridRendererProgramInfo
  buffers : List ℚ
deriving DecidableEq

/-- The `GridRenderer` constructor (lines 268-281): acquire the context (throw
`WebGLError` when unavailable), build the shader program and its locations,
allocate the buffers. -/
def GridRenderer_new (env : GLEnv) : Except WebGLError GridRendererState :=
  if env.contextOk = false then .error ⟨"Can\x27t get WebGL context."⟩
  else
    match createGridRendererProgram env with
    | .error e => .error e
    | .ok info =>
      match createGridRendererBuffers env with
      | .error e => .error e
      | .ok b => .ok ⟨info, b⟩

/-- C8: the shader renderer's construction either yields a fully initialized
renderer (program locations and quad buffer all present) or raises a
`WebGLError`; an unavailable context, a failed shader compilation (message
embeds the compiler diagnostic) and a failed link (message embeds the linker
diagnostic) each raise the corresponding error, and every non-error outcome
carries a complete renderer state. -/
theorem shader_init_errors (env : GLEnv) :
    (env.contextOk = false →
      GridRenderer_new env = .error ⟨"Can\x27t get WebGL context."⟩) ∧
    (env.contextOk = true → env.createShaderOk .vertex = true → env.compileOk .vertex = false →
      GridRenderer_new env =
        .error ⟨"An error occurred compiling the shaders: " ++ env.shaderInfoLog .vertex ++ "."⟩) ∧
    (env.contextOk = true → env.createShaderOk .vertex = true → env.compileOk .vertex = true →
     env.createShaderOk .fragment = true → env.compileOk .fragment = false →
      GridRenderer_new env =
        .error ⟨"An error occurred compiling the shaders: " ++ env.shaderInfoLog .fragment ++ "."⟩) ∧
    (env.contextOk = true → env.createShaderOk .vertex = true → env.compileOk .vertex = true →
     env.createShaderOk .fragment = true → env.compileOk .fragment = true →
     env.createProgramOk = true → env.linkOk = false →
      GridRenderer_new env =
        .error ⟨"Unable to initialize the shader program: " ++ env.programInfoLog ++ "."⟩) ∧
    (env.contextOk = true → env.createShaderOk .vertex = true → env.compileOk .vertex = true →
     env.createShaderOk .fragment = true → env.compileOk .fragment = true →
     env.createProgramOk = true → env.linkOk = true → env.createBufferOk = true →
      GridRenderer_new env =
        .ok ⟨⟨env.attribLoc "aVertexPosition", env.uniformLoc "uGridBottomLeft",
              env.uniformLoc "uGridCellSize", env.uniformLoc "uGridCellCount"⟩, quadVerts⟩) ∧
    ((∃ r : GridRendererState, GridRenderer_new env = .ok r) ∨
     (∃ e : WebGLError, GridRenderer_new env = .error e)) := by
  refine ⟨?_, ?_, ?_, ?_, ?_, ?_⟩
  · intro h1
    simp [GridRenderer_new, h1]
  · intro h1 h2 h3
    simp [GridRenderer_new, createGridRendererProgram, createShaderProgram, loadShader,
      h1, h2, h3]
  · intro h1 h2 h3 h4 h5
    simp [GridRenderer_new, createGridRendererProgram, createShaderProgram, loadShader,
      h1, h2, h3, h4, h5]
  · intro h1 h2 h3 h4 h5 h6 h7
    simp [GridRenderer_new, createGridRendererProgram, createShaderProgram, loadShader,
      h1, h2, h3, h4, h5, h6, h7]
  · intro h1 h2 h3 h4 h5 h6 h7 h8
    simp [GridRenderer_new, createGridRendererProgram, createShaderProgram, loadShader,
      createGridRendererBuffers, h1, h2, h3, h4, h5, h6, h7, h8]
  · cases hr : GridRenderer_new env with
    | ok r => exact Or.inl ⟨r, rfl⟩
    | error e => exact Or.inr ⟨e, rfl⟩

/-- A host where WebGL context acquisition fails. -/
def envNoCtx : GLEnv :=
  ⟨false, fun _ => true, fun _ => true, fun _ => "log", true, true, "plog", true,
   fun _ => 0, fun _ => 0⟩

/-- A host where the vertex shader fails to compile. -/
def envBadVertex : GLEnv :=
  ⟨true, fun _ => true, fun t => match t with | .vertex => false | .fragment => true,
   fun _ => "vlog", true, true, "plog", true, fun _ => 0, fun _ => 0⟩

/-- A host where shader program linking fails. -/
def envBadLink : GLEnv :=
  ⟨true, fun _ => true, fun _ => true, fun _ => "log", true, false, "plog", true,
   fun _ => 0, fun _ => 0⟩

/-- A fully functional host. -/
def envOk : GLEnv :=
  ⟨true, fun _ => true, fun _ => true, fun _ => "log", true, true, "plog", true,
   fun _ => 0, fun _ => 0⟩

/-- Witness for C8 on four concrete hosts: missing context, vertex-compile
failure, link failure, and full success. -/
theorem shader_init_errors_witness :
    GridRenderer_new envNoCtx = .error ⟨"Can\x27t get WebGL context."⟩ ∧
    GridRenderer_new envBadVertex =
      .error ⟨"An error occurred compiling the shaders: " ++
        envBadVertex.shaderInfoLog .vertex ++ "."⟩ ∧
    GridRenderer_new envBadLink =
      .error ⟨"Unable to initialize the shader program: " ++ envBadLink.programInfoLog ++ "."⟩ ∧
    GridRenderer_new envOk =
      .ok ⟨⟨envOk.attribLoc "aVertexPosition", envOk.uniformLoc "uGridBottomLeft",
            envOk.uniformLoc "uGridCellSize", envOk.uniformLoc "uGridCellCount"⟩, quadVerts⟩ :=
  ⟨(shader_init_errors envNoCtx).1 rfl,
   (shader_init_errors envBadVertex).2.1 rfl rfl rfl,
   (shader_init_errors envBadLink).2.2.2.1 rfl rfl rfl rfl rfl rfl rfl,
   (shader_init_errors envOk).2.2.2.2.1 rfl rfl rfl rfl rfl rfl rfl rfl⟩

/-- The GPU resource heap: ids handed out so far and the ids still allocated
(never released — the code has no release path). -/
structure GpuHeap where
  nextId : ℕ
  live : List ℕ
deriving DecidableEq

/-- A constructed renderer as the effect sees it: the canvas it was built for
(`gridCanvas()`), and the program and buffer resources it allocated. -/
structure RendererHandles where
  canvas : ℕ
  programId : ℕ
  bufferId : ℕ
deriving DecidableEq

/-- Constructing a `GridRenderer` (webGLRenderer.ts lines 268-281) allocates a
compiled program and a vertex buffer on the GL heap.  The class exposes no
release operation, and its comment (lines 260-261) concedes it relies on
garbage collection — nothing ever removes an id from `live`. -/
def constructRenderer (h : GpuHeap) (canvas : ℕ) : GpuHeap × RendererHandles :=
  (⟨h.nextId + 2, h.nextId :: (h.nextId + 1) :: h.live⟩, ⟨canvas, h.nextId, h.nextId + 1⟩)

/-- The renderer ref plus the GL heap, as managed by App's grid render
effect. -/
structure EffectState where
  heap : GpuHeap
  current : Option RendererHandles
deriving DecidableEq

/-- App.tsx lines 302-312 (WebGL branch of the grid render effect): if there
is no renderer, or the current renderer's canvas is not the target canvas,
construct a new `GridRenderer` and overwrite the ref; no teardown of the old
renderer's program or buffer happens anywhere. -/
def gridRenderEffectStep (st : EffectState) (gridCanvas : ℕ) : EffectState :=
  match st.current with
  | some r =>
    if r.canvas = gridCanvas then st
    else
      let c := constructRenderer st.heap gridCanvas
      ⟨c.1, some c.2⟩
  | none =>
    let c := constructRenderer st.heap gridCanvas
    ⟨c.1, some c.2⟩

/-- C9 evaluated at the failing input: with a renderer for canvas 0 holding
program 0 and buffer 1, a render onto a different canvas 1 constructs a new
renderer (program 2, buffer 3) while the old program and buffer are still
allocated — the old resources are never released before the new construction,
contradicting the teardown rule. -/
theorem gpu_teardown_bug :
    (gridRenderEffectStep ⟨⟨2, [0, 1]⟩, some ⟨0, 0, 1⟩⟩ 1).current = some ⟨1, 2, 3⟩ ∧
    0 ∈ (gridRenderEffectStep ⟨⟨2, [0, 1]⟩, some ⟨0, 0, 1⟩⟩ 1).heap.live ∧
    1 ∈ (gridRenderEffectStep ⟨⟨2, [0, 1]⟩, some ⟨0, 0, 1⟩⟩ 1).heap.live := by
  refine ⟨rfl, ?_, ?_⟩ <;> simp [gridRenderEffectStep, constructRenderer]
